import Mathlib

/-!
Shallow embedding of `src/src/main/agent/runtime.ts` from the openwork-d
repository, together with a spec-modelled checkpoint store (the
`SqlJsSaver` implementation itself is not part of the provided sources).

The module-level mutable variables of `runtime.ts` (`checkpointer`,
`globalWorkspacePath`) become an explicit `RuntimeState` threaded through
the operations; calls into external collaborators (`new SqlJsSaver`,
`saver.initialize()`, `saver.close()`) are recorded as an explicit effect
trace.  `console.log` debugging output is not modelled.
-/

namespace OpenworkD

/-- Node's `join(a, b)` as used for `join(app.getPath('userData'), 'langgraph.sqlite')`.
Only concatenation with a separator matters here; path normalization is not modelled. -/
def pathJoin (a b : String) : String := a ++ "/" ++ b

/-- JS `a || b` for an optional string `a`: `undefined`/`null` and the empty
string are falsy, so both fall back to `b` (source line 49: `modelId || getDefaultModel()`). -/
def jsOrElse (a : Option String) (b : String) : String :=
  match a with
  | none => b
  | some s => if s = "" then b else s

/-- JS truthiness of a `string | null | undefined` value (`!!v`, `if (!apiKey)`):
absent and empty strings are falsy. -/
def jsTruthy : Option String → Bool
  | none => false
  | some s => !(s == "")

/-- JS `String.prototype.startsWith`, modelled on the character sequence. -/
def strStartsWith (s p : String) : Bool := p.data.isPrefixOf s.data

/-- A constructed `SqlJsSaver` object: `saverId` is its allocation identity
(distinct `new` expressions yield distinct objects), `dbPath` the constructor
argument (source line 41). -/
structure SqlJsSaver where
  saverId : Nat
  dbPath : String
  deriving DecidableEq, Repr

/-- Calls the runtime module makes into its collaborators. -/
inductive Effect where
  /-- `new SqlJsSaver(dbPath)` (source line 41). -/
  | newSaver (saverId : Nat) (dbPath : String)
  /-- `await checkpointer.initialize()` (source line 42). -/
  | saverInit (saverId : Nat)
  /-- `await checkpointer.close()` (source line 125). -/
  | saverClose (saverId : Nat)
  deriving DecidableEq, Repr

/-- The module-level mutable state of `runtime.ts`: the singleton
`checkpointer` (line 17) and `globalWorkspacePath` (line 20).  `nextSaverId`
is the allocator counter giving each `new SqlJsSaver` its identity. -/
structure RuntimeState where
  checkpointer : Option SqlJsSaver
  globalWorkspacePath : Option String
  nextSaverId : Nat
  deriving DecidableEq, Repr

/-- External read-only collaborators of the module: `app.getPath('userData')`,
`getDefaultModel()` and `getApiKey(provider)` from `../ipc/models`. -/
structure Env where
  userDataPath : String
  getDefaultModel : String
  getApiKey : String → Option String

/-- `setWorkspacePath` (source lines 26-29). -/
def setWorkspacePath (path : Option String) (st : RuntimeState) : RuntimeState :=
  { st with globalWorkspacePath := path }

/-- `getWorkspacePath` (source lines 34-36). -/
def getWorkspacePath (st : RuntimeState) : Option String :=
  st.globalWorkspacePath

/-- `getCheckpointer` (source lines 38-45): lazily constructs and initializes
the singleton `SqlJsSaver` at `join(userData, 'langgraph.sqlite')` when the
module variable is null, otherwise returns the stored instance. -/
def getCheckpointer (userDataPath : String) (st : RuntimeState) :
    SqlJsSaver × RuntimeState × List Effect :=
  match st.checkpointer with
  | some cp => (cp, st, [])
  | none =>
      let dbPath := pathJoin userDataPath "langgraph.sqlite"
      let saver : SqlJsSaver := ⟨st.nextSaverId, dbPath⟩
      (saver,
       { st with checkpointer := some saver, nextSaverId := st.nextSaverId + 1 },
       [Effect.newSaver saver.saverId dbPath, Effect.saverInit saver.saverId])

/-- The errors `getModelInstance` can throw (source lines 57, 67, 75). -/
inductive RuntimeError where
  | anthropicApiKeyNotConfigured
  | openaiApiKeyNotConfigured
  | geminiComingSoon
  deriving DecidableEq, Repr

/-- The literal `Error` message of each thrown error. -/
def RuntimeError.message : RuntimeError → String
  | RuntimeError.anthropicApiKeyNotConfigured => "Anthropic API key not configured"
  | RuntimeError.openaiApiKeyNotConfigured => "OpenAI API key not configured"
  | RuntimeError.geminiComingSoon => "Gemini support coming soon"

/-- The possible return values of `getModelInstance`
(`ChatAnthropic | ChatOpenAI | string`), each recording its constructor
arguments. -/
inductive ModelInstance where
  | chatAnthropic (model : String) (anthropicApiKey : String)
  | chatOpenAI (model : String) (openAIApiKey : String)
  | modelString (model : String)
  deriving DecidableEq, Repr

/-- `getModelInstance` (source lines 48-80): resolve the model id
(`modelId || getDefaultModel()`), then dispatch on its prefix. -/
def getModelInstance (env : Env) (modelId : Option String) :
    Except RuntimeError ModelInstance :=
  let model := jsOrElse modelId env.getDefaultModel
  if strStartsWith model "claude" then
    let apiKey := env.getApiKey "anthropic"
    if jsTruthy apiKey then
      Except.ok (ModelInstance.chatAnthropic model (apiKey.getD ""))
    else
      Except.error RuntimeError.anthropicApiKeyNotConfigured
  else if strStartsWith model "gpt" then
    let apiKey := env.getApiKey "openai"
    if jsTruthy apiKey then
      Except.ok (ModelInstance.chatOpenAI model (apiKey.getD ""))
    else
      Except.error RuntimeError.openaiApiKeyNotConfigured
  else if strStartsWith model "gemini" then
    Except.error RuntimeError.geminiComingSoon
  else
    Except.ok (ModelInstance.modelString model)

/-- A workspace backend factory as produced by `createSyncedBackendFactory`
(external module `./synced-backend`), recording its configuration argument. -/
structure SyncedBackendFactory where
  syncPath : Option String
  deriving DecidableEq, Repr

/-- `createSyncedBackendFactory(syncPath)` (imported collaborator, called at
source line 115). -/
def createSyncedBackendFactory (syncPath : Option String) : SyncedBackendFactory :=
  ⟨syncPath⟩

/-- The agent returned by the external `createDeepAgent`, recording exactly
the arguments it was wired with (source lines 111-116). -/
structure DeepAgent where
  model : ModelInstance
  checkpointer : SqlJsSaver
  backend : SyncedBackendFactory
  deriving DecidableEq, Repr

/-- `createDeepAgent({model, checkpointer, backend})` (imported collaborator). -/
def createDeepAgent (model : ModelInstance) (checkpointer : SqlJsSaver)
    (backend : SyncedBackendFactory) : DeepAgent :=
  ⟨model, checkpointer, backend⟩

/-- `CreateAgentRuntimeOptions` (source lines 82-87).  `workspacePath` is
`string | null | undefined`: `none` is an absent (undefined) field,
`some none` an explicit `null`, `some (some s)` a string. -/
structure CreateAgentRuntimeOptions where
  modelId : Option String := none
  workspacePath : Option (Option String) := none
  deriving DecidableEq, Repr

/-- `createAgentRuntime` (source lines 93-120): build the model instance,
obtain the checkpointer singleton, compute
`syncPath = workspacePath !== undefined ? workspacePath : globalWorkspacePath`
(line 105), and wire all three into `createDeepAgent`. -/
def createAgentRuntime (env : Env) (options : CreateAgentRuntimeOptions)
    (st : RuntimeState) :
    Except RuntimeError (DeepAgent × RuntimeState × List Effect) :=
  match getModelInstance env options.modelId with
  | Except.error e => Except.error e
  | Except.ok model =>
      match getCheckpointer env.userDataPath st with
      | (saver, st1, effs) =>
          let syncPath :=
            match options.workspacePath with
            | some p => p
            | none => st1.globalWorkspacePath
          Except.ok
            (createDeepAgent model saver (createSyncedBackendFactory syncPath),
             st1, effs)

/-- `closeRuntime` (source lines 123-128): if the singleton exists, close it
and reset the module variable to null; otherwise do nothing. -/
def closeRuntime (st : RuntimeState) : RuntimeState × List Effect :=
  match st.checkpointer with
  | some cp => ({ st with checkpointer := none }, [Effect.saverClose cp.saverId])
  | none => (st, [])

/-- A sequence of `n` consecutive `getCheckpointer` calls with no intervening
`closeRuntime`, collecting the returned instances and the combined effect
trace. -/
def runGetCheckpointer (userDataPath : String) :
    Nat → RuntimeState → List SqlJsSaver × RuntimeState × List Effect
  | 0, st => ([], st, [])
  | n + 1, st =>
      match getCheckpointer userDataPath st with
      | (s, st1, e1) =>
          match runGetCheckpointer userDataPath n st1 with
          | (rs, st2, e2) => (s :: rs, st2, e1 ++ e2)

/-- A concrete environment used to instantiate the theorems below. -/
def envDemo : Env :=
  { userDataPath := "ud"
    getDefaultModel := "claude-sonnet-4"
    getApiKey := fun p =>
      if p = "anthropic" then some "sk-ant"
      else if p = "openai" then some "sk-oai"
      else none }

/-- Modelled from the spec: the `Checkpoint` record of §3.  The `SqlJsSaver`
implementation (`src/main/checkpointer/sqljs-saver`) is not part of the
provided sources; `checkpointId` is a `Nat` standing for the spec's totally
and monotonically ordered identifier. -/
structure Checkpoint where
  threadId : String
  checkpointId : Nat
  parentCheckpointId : Option Nat
  state : String
  metadata : String
  deriving DecidableEq, Repr

/-- Modelled from the spec: `put(checkpoint)` appends a new checkpoint to the
store (§4.1); the store is the append-ordered history of puts. -/
def put (cp : Checkpoint) (store : List Checkpoint) : List Checkpoint :=
  store ++ [cp]

/-- One step of the `getLatest` scan: keep the stored checkpoint of the
requested thread with the greatest `checkpointId` seen so far. -/
def latestStep (threadId : String) (best : Option Checkpoint) (cp : Checkpoint) :
    Option Checkpoint :=
  if cp.threadId = threadId then
    match best with
    | none => some cp
    | some b => if b.checkpointId < cp.checkpointId then some cp else some b
  else best

/-- Modelled from the spec: `getLatest(threadId)` returns the checkpoint with
greatest `checkpointId` for the thread, or none if the thread has no
checkpoints (§4.1), implemented as a scan over the stored history. -/
def getLatest (threadId : String) (store : List Checkpoint) : Option Checkpoint :=
  store.foldl (latestStep threadId) none

/-- A sequence of `put` calls applied in submission order. -/
def putAll (cps : List Checkpoint) (store : List Checkpoint) : List Checkpoint :=
  cps.foldl (fun s cp => put cp s) store

/-- A concrete environment with no credentials configured. -/
def envNoKeys : Env :=
  { userDataPath := "ud"
    getDefaultModel := "claude-sonnet-4"
    getApiKey := fun _ => none }

/-- The four branches of the provider dispatch in `getModelInstance`. -/
inductive ProviderBranch where
  | anthropic
  | openai
  | gemini
  | fallback
  deriving DecidableEq, Repr

/-- The pure string-prefix switch of the source (lines 53, 63, 73): which
branch a resolved model id selects, determined by its prefix alone. -/
def providerBranch (model : String) : ProviderBranch :=
  if strStartsWith model "claude" then ProviderBranch.anthropic
  else if strStartsWith model "gpt" then ProviderBranch.openai
  else if strStartsWith model "gemini" then ProviderBranch.gemini
  else ProviderBranch.fallback

/-- The branch a `getModelInstance` outcome came from: each constructor and
each error is produced by exactly one branch of the dispatch. -/
def branchOfResult : Except RuntimeError ModelInstance → ProviderBranch
  | Except.ok (ModelInstance.chatAnthropic _ _) => ProviderBranch.anthropic
  | Except.error RuntimeError.anthropicApiKeyNotConfigured => ProviderBranch.anthropic
  | Except.ok (ModelInstance.chatOpenAI _ _) => ProviderBranch.openai
  | Except.error RuntimeError.openaiApiKeyNotConfigured => ProviderBranch.openai
  | Except.error RuntimeError.geminiComingSoon => ProviderBranch.gemini
  | Except.ok (ModelInstance.modelString _) => ProviderBranch.fallback

theorem putAll_eq_append (cps store : List Checkpoint) :
    putAll cps store = store ++ cps := by
  induction cps generalizing store with
  | nil => simp [putAll]
  | cons c cs ih =>
      simp only [putAll, List.foldl_cons] at *
      rw [ih, put]
      simp

theorem getLatest_append_one (t : String) (store : List Checkpoint)
    (cp : Checkpoint) :
    getLatest t (store ++ [cp]) = latestStep t (getLatest t store) cp := by
  simp [getLatest, List.foldl_append]

/-- Invariant of the `getLatest` scan on a single-thread store: an empty
result means an empty store, and a returned checkpoint is a stored one whose
`checkpointId` dominates every stored checkpoint. -/
theorem getLatest_spec_aux (t : String) (store : List Checkpoint)
    (hall : ∀ cp ∈ store, cp.threadId = t) :
    (getLatest t store = none → store = []) ∧
    (∀ c, getLatest t store = some c →
      c ∈ store ∧ ∀ d ∈ store, d.checkpointId ≤ c.checkpointId) := by
  induction store using List.reverseRecOn with
  | nil => simp [getLatest]
  | append_singleton l a ih =>
      have ha : a.threadId = t := hall a (by simp)
      have hl : ∀ cp ∈ l, cp.threadId = t := fun cp hcp => hall cp (by simp [hcp])
      have ih' := ih hl
      rw [getLatest_append_one]
      unfold latestStep
      rw [if_pos ha]
      cases hbest : getLatest t l with
      | none =>
          have hnil : l = [] := ih'.1 hbest
          subst hnil
          constructor
          · intro h; cases h
          · intro c hc
            have hca : c = a := by
              simpa using hc.symm
            subst hca
            exact ⟨by simp, by simp⟩
      | some b =>
          have hb := ih'.2 b hbest
          constructor
          · intro h
            by_cases hlt : b.checkpointId < a.checkpointId <;> simp [hlt] at h
          · intro c hc
            by_cases hlt : b.checkpointId < a.checkpointId
            · have hca : c = a := by simp [hlt] at hc; exact hc.symm
              subst hca
              refine ⟨by simp, ?_⟩
              intro d hd
              rcases List.mem_append.1 hd with hdl | hda
              · exact le_trans (hb.2 d hdl) (le_of_lt hlt)
              · simp only [List.mem_singleton] at hda
                subst hda; exact le_refl _
            · have hcb : c = b := by simp [hlt] at hc; exact hc.symm
              subst hcb
              refine ⟨List.mem_append.2 (Or.inl hb.1), ?_⟩
              intro d hd
              rcases List.mem_append.1 hd with hdl | hda
              · exact hb.2 d hdl
              · simp only [List.mem_singleton] at hda
                subst hda; exact le_of_not_lt hlt

/-- If the singleton already exists, every further `getCheckpointer` call
returns it unchanged with no effects. -/
theorem runGetCheckpointer_of_some (userDataPath : String) (s : SqlJsSaver)
    (n : Nat) (st : RuntimeState) (h : st.checkpointer = some s) :
    runGetCheckpointer userDataPath n st = (List.replicate n s, st, []) := by
  induction n with
  | zero => simp [runGetCheckpointer]
  | succ n ih =>
      simp [runGetCheckpointer, getCheckpointer, h, ih, List.replicate]

/-- C1: for every sequence of `getCheckpointer` calls with no intervening
`closeRuntime`, starting from the fresh module state (`checkpointer` null),
the first call constructs exactly one `SqlJsSaver` at the
`join(userData, 'langgraph.sqlite')` path and initializes it exactly once
(the whole effect trace is one construction followed by one
initialization), and every call in the sequence returns that same
instance. -/
theorem getCheckpointer_singleton (userDataPath : String) (wp : Option String)
    (nid : Nat) (n : Nat) :
    runGetCheckpointer userDataPath (n + 1) ⟨none, wp, nid⟩ =
      (List.replicate (n + 1) ⟨nid, pathJoin userDataPath "langgraph.sqlite"⟩,
       ⟨some ⟨nid, pathJoin userDataPath "langgraph.sqlite"⟩, wp, nid + 1⟩,
       [Effect.newSaver nid (pathJoin userDataPath "langgraph.sqlite"),
        Effect.saverInit nid]) := by
  have h1 : getCheckpointer userDataPath ⟨none, wp, nid⟩ =
      (⟨nid, pathJoin userDataPath "langgraph.sqlite"⟩,
       ⟨some ⟨nid, pathJoin userDataPath "langgraph.sqlite"⟩, wp, nid + 1⟩,
       [Effect.newSaver nid (pathJoin userDataPath "langgraph.sqlite"),
        Effect.saverInit nid]) := rfl
  have h2 := runGetCheckpointer_of_some userDataPath
    ⟨nid, pathJoin userDataPath "langgraph.sqlite"⟩ n
    ⟨some ⟨nid, pathJoin userDataPath "langgraph.sqlite"⟩, wp, nid + 1⟩ rfl
  simp [runGetCheckpointer, h1, h2, List.replicate_succ]

/-- C2 counterexample: starting fresh, after `getCheckpointer` and then
`closeRuntime`, a further `getCheckpointer` call silently constructs and
initializes a fresh `SqlJsSaver` (its effect trace is a construction plus an
initialization, and the returned instance is not the original one) instead
of failing with a `StoreClosedError`. -/
theorem getCheckpointer_after_close_counterexample :
    (getCheckpointer "ud"
        (closeRuntime ((getCheckpointer "ud" ⟨none, none, 0⟩).2.1)).1).2.2 =
      [Effect.newSaver 1 (pathJoin "ud" "langgraph.sqlite"),
       Effect.saverInit 1] ∧
    (getCheckpointer "ud"
        (closeRuntime ((getCheckpointer "ud" ⟨none, none, 0⟩).2.1)).1).1 ≠
      (getCheckpointer "ud" ⟨none, none, 0⟩).1 :=
  ⟨rfl, by decide⟩

/-- C2 (amended): `closeRuntime` always leaves the module singleton null, and
a subsequent `getCheckpointer` call silently constructs and initializes a
fresh `SqlJsSaver` at the `join(userData, 'langgraph.sqlite')` path rather
than failing with a `StoreClosedError`. -/
theorem getCheckpointer_after_close_reinitializes (userDataPath : String)
    (st : RuntimeState) :
    (closeRuntime st).1.checkpointer = none ∧
    getCheckpointer userDataPath (closeRuntime st).1 =
      (⟨(closeRuntime st).1.nextSaverId, pathJoin userDataPath "langgraph.sqlite"⟩,
       { (closeRuntime st).1 with
          checkpointer :=
            some ⟨(closeRuntime st).1.nextSaverId,
                  pathJoin userDataPath "langgraph.sqlite"⟩,
          nextSaverId := (closeRuntime st).1.nextSaverId + 1 },
       [Effect.newSaver (closeRuntime st).1.nextSaverId
          (pathJoin userDataPath "langgraph.sqlite"),
        Effect.saverInit (closeRuntime st).1.nextSaverId]) := by
  have hnone : (closeRuntime st).1.checkpointer = none := by
    cases h : st.checkpointer <;> simp [closeRuntime, h]
  refine ⟨hnone, ?_⟩
  unfold getCheckpointer
  rw [hnone]

/-- C7: when the singleton exists, the first `closeRuntime` closes it and
clears the module variable; a second `closeRuntime` returns the same state
with no effects (no throw, nothing resurrected), and across the two calls
the underlying checkpointer's `close` is invoked exactly once. -/
theorem closeRuntime_idempotent (st : RuntimeState) (cp : SqlJsSaver)
    (h : st.checkpointer = some cp) :
    closeRuntime st =
      ({ st with checkpointer := none }, [Effect.saverClose cp.saverId]) ∧
    closeRuntime (closeRuntime st).1 = ((closeRuntime st).1, []) ∧
    (closeRuntime st).2 ++ (closeRuntime (closeRuntime st).1).2 =
      [Effect.saverClose cp.saverId] := by
  have h1 : closeRuntime st =
      ({ st with checkpointer := none }, [Effect.saverClose cp.saverId]) := by
    simp [closeRuntime, h]
  refine ⟨h1, ?_, ?_⟩ <;> rw [h1] <;> simp [closeRuntime]

/-- C7 witness: the double-close property at a concrete state holding a
saver. -/
theorem closeRuntime_idempotent_witness :
    closeRuntime ⟨some ⟨0, "db"⟩, none, 1⟩ =
      (⟨none, none, 1⟩, [Effect.saverClose 0]) ∧
    closeRuntime (closeRuntime ⟨some ⟨0, "db"⟩, none, 1⟩).1 =
      ((closeRuntime ⟨some ⟨0, "db"⟩, none, 1⟩).1, []) ∧
    (closeRuntime ⟨some ⟨0, "db"⟩, none, 1⟩).2 ++
        (closeRuntime (closeRuntime ⟨some ⟨0, "db"⟩, none, 1⟩).1).2 =
      [Effect.saverClose 0] :=
  closeRuntime_idempotent ⟨some ⟨0, "db"⟩, none, 1⟩ ⟨0, "db"⟩ rfl

/-- C10: `getWorkspacePath` after `setWorkspacePath p` returns exactly `p`,
and `setWorkspacePath` changes nothing else: the checkpointer singleton and
the allocator counter are untouched. -/
theorem setWorkspacePath_get_and_frame (p : Option String) (st : RuntimeState) :
    getWorkspacePath (setWorkspacePath p st) = p ∧
    (setWorkspacePath p st).checkpointer = st.checkpointer ∧
    (setWorkspacePath p st).nextSaverId = st.nextSaverId :=
  ⟨rfl, rfl, rfl⟩

/-- A model id starting with `gpt` does not start with `claude`, so the
second branch of the dispatch is reached exactly for `gpt`-prefixed ids. -/
theorem strStartsWith_gpt_not_claude (s : String)
    (h : strStartsWith s "gpt" = true) : strStartsWith s "claude" = false := by
  by_contra hc
  rw [Bool.not_eq_false] at hc
  unfold strStartsWith at h hc
  rw [List.isPrefixOf_iff_prefix] at h hc
  rcases List.prefix_or_prefix_of_prefix h hc with hp | hp
  · exact absurd hp (by decide)
  · exact absurd hp (by decide)

/-- C3: for a resolved model id with the `claude` (resp. `gpt`) prefix, if
the `anthropic` (resp. `openai`) credential lookup yields no usable key the
call fails with the provider's key-not-configured error and no model handle
is produced; if a nonempty key is present it returns the provider handle
configured with exactly that model id and that key. -/
theorem getModelInstance_credentials (env : Env) (modelId : Option String) :
    (strStartsWith (jsOrElse modelId env.getDefaultModel) "claude" = true →
      (jsTruthy (env.getApiKey "anthropic") = false →
        getModelInstance env modelId =
          Except.error RuntimeError.anthropicApiKeyNotConfigured) ∧
      (∀ k, env.getApiKey "anthropic" = some k → k ≠ "" →
        getModelInstance env modelId =
          Except.ok (ModelInstance.chatAnthropic
            (jsOrElse modelId env.getDefaultModel) k))) ∧
    (strStartsWith (jsOrElse modelId env.getDefaultModel) "gpt" = true →
      (jsTruthy (env.getApiKey "openai") = false →
        getModelInstance env modelId =
          Except.error RuntimeError.openaiApiKeyNotConfigured) ∧
      (∀ k, env.getApiKey "openai" = some k → k ≠ "" →
        getModelInstance env modelId =
          Except.ok (ModelInstance.chatOpenAI
            (jsOrElse modelId env.getDefaultModel) k))) := by
  constructor
  · intro hclaude
    constructor
    · intro hkey
      simp [getModelInstance, hclaude, hkey]
    · intro k hk hne
      have hkey : jsTruthy (env.getApiKey "anthropic") = true := by
        rw [hk]; simp [jsTruthy, hne]
      simp [getModelInstance, hclaude, hkey, hk, jsTruthy, hne]
  · intro hgpt
    have hclaude := strStartsWith_gpt_not_claude _ hgpt
    constructor
    · intro hkey
      simp [getModelInstance, hclaude, hgpt, hkey]
    · intro k hk hne
      have hkey : jsTruthy (env.getApiKey "openai") = true := by
        rw [hk]; simp [jsTruthy, hne]
      simp [getModelInstance, hclaude, hgpt, hkey, hk, jsTruthy, hne]

/-- C3 witness: with the demo credentials, the default `claude` model yields
an Anthropic handle carrying the configured key; without credentials a `gpt`
model fails with the OpenAI key error. -/
theorem getModelInstance_credentials_witness :
    getModelInstance envDemo none =
      Except.ok (ModelInstance.chatAnthropic "claude-sonnet-4" "sk-ant") ∧
    getModelInstance envNoKeys (some "gpt-4o") =
      Except.error RuntimeError.openaiApiKeyNotConfigured := by
  constructor
  · exact ((getModelInstance_credentials envDemo none).1 (by decide)).2
      "sk-ant" (by decide) (by decide)
  · exact ((getModelInstance_credentials envNoKeys (some "gpt-4o")).2
      (by decide)).1 (by decide)

/-- C4 counterexample: `llama-3` begins with no supported provider prefix,
yet `getModelInstance` does not fail with an unsupported-provider error: it
succeeds, returning the raw model string. -/
theorem getModelInstance_unsupported_counterexample :
    getModelInstance envDemo (some "llama-3") =
      Except.ok (ModelInstance.modelString "llama-3") := rfl

/-- C4 (amended): among resolved model ids with no supported provider
prefix (`claude`/`gpt`), only those with the `gemini` prefix make the
dispatch fail with the unsupported-provider error; every other unrecognized
id does not fail — no provider handle is constructed and the raw model
string is returned for the agent engine to handle. -/
theorem getModelInstance_unsupported (env : Env) (modelId : Option String)
    (hc : strStartsWith (jsOrElse modelId env.getDefaultModel) "claude" = false)
    (hg : strStartsWith (jsOrElse modelId env.getDefaultModel) "gpt" = false) :
    (strStartsWith (jsOrElse modelId env.getDefaultModel) "gemini" = true →
      getModelInstance env modelId =
        Except.error RuntimeError.geminiComingSoon) ∧
    (strStartsWith (jsOrElse modelId env.getDefaultModel) "gemini" = false →
      getModelInstance env modelId =
        Except.ok (ModelInstance.modelString
          (jsOrElse modelId env.getDefaultModel))) := by
  constructor <;> intro hgem <;> simp [getModelInstance, hc, hg, hgem]

/-- C4 witness: a `gemini` id fails with the coming-soon error; an
unrecognized `mistral` id is passed through as a raw string. -/
theorem getModelInstance_unsupported_witness :
    getModelInstance envDemo (some "gemini-pro") =
      Except.error RuntimeError.geminiComingSoon ∧
    getModelInstance envDemo (some "mistral-7b") =
      Except.ok (ModelInstance.modelString "mistral-7b") := by
  constructor
  · exact (getModelInstance_unsupported envDemo (some "gemini-pro")
      (by decide) (by decide)).1 (by decide)
  · exact (getModelInstance_unsupported envDemo (some "mistral-7b")
      (by decide) (by decide)).2 (by decide)

/-- C5: the branch `getModelInstance` takes is exactly the pure
string-prefix switch `providerBranch` applied to the resolved model id —
independent of the credential environment — and that switch is determined
solely by the three prefix tests: two ids agreeing on the `claude`, `gpt`
and `gemini` prefix tests select the same branch. -/
theorem getModelInstance_branch_prefix_only (env : Env)
    (modelId : Option String) :
    branchOfResult (getModelInstance env modelId) =
      providerBranch (jsOrElse modelId env.getDefaultModel) ∧
    ∀ s t : String,
      strStartsWith s "claude" = strStartsWith t "claude" →
      strStartsWith s "gpt" = strStartsWith t "gpt" →
      strStartsWith s "gemini" = strStartsWith t "gemini" →
      providerBranch s = providerBranch t := by
  constructor
  · cases hc : strStartsWith (jsOrElse modelId env.getDefaultModel) "claude" with
    | true =>
        cases hk : jsTruthy (env.getApiKey "anthropic") <;>
          simp [getModelInstance, providerBranch, branchOfResult, hc, hk]
    | false =>
        cases hg : strStartsWith (jsOrElse modelId env.getDefaultModel) "gpt" with
        | true =>
            cases hk : jsTruthy (env.getApiKey "openai") <;>
              simp [getModelInstance, providerBranch, branchOfResult, hc, hg, hk]
        | false =>
            cases hgem : strStartsWith (jsOrElse modelId env.getDefaultModel) "gemini" <;>
              simp [getModelInstance, providerBranch, branchOfResult, hc, hg, hgem]
  · intro s t h1 h2 h3
    unfold providerBranch
    rw [h1, h2, h3]

/-- C5 witness: the branch equality at a concrete environment and id, and
prefix-only determination for two `gpt` ids. -/
theorem getModelInstance_branch_prefix_only_witness :
    branchOfResult (getModelInstance envDemo (some "gpt-4o")) =
      providerBranch (jsOrElse (some "gpt-4o") envDemo.getDefaultModel) ∧
    providerBranch "gpt-4o" = providerBranch "gpt-5" :=
  ⟨(getModelInstance_branch_prefix_only envDemo (some "gpt-4o")).1,
   (getModelInstance_branch_prefix_only envDemo (some "gpt-4o")).2
     "gpt-4o" "gpt-5" (by decide) (by decide) (by decide)⟩

/-- The state returned by `getCheckpointer` stores the returned instance as
the singleton. -/
theorem getCheckpointer_stores_result (userDataPath : String)
    (st : RuntimeState) :
    (getCheckpointer userDataPath st).2.1.checkpointer =
      some (getCheckpointer userDataPath st).1 := by
  cases h : st.checkpointer <;> simp [getCheckpointer, h]

/-- `getCheckpointer` never touches the global workspace path. -/
theorem getCheckpointer_preserves_gwp (userDataPath : String)
    (st : RuntimeState) :
    (getCheckpointer userDataPath st).2.1.globalWorkspacePath =
      st.globalWorkspacePath := by
  cases h : st.checkpointer <;> simp [getCheckpointer, h]

/-- Full characterization of a successful `createAgentRuntime`: the agent's
model is the `getModelInstance` result, its checkpointer together with the
final state and effects are exactly the `getCheckpointer` call, and its
backend is the factory at the selected sync path. -/
theorem createAgentRuntime_ok (env : Env) (options : CreateAgentRuntimeOptions)
    (st : RuntimeState) (agent : DeepAgent) (st1 : RuntimeState)
    (effs : List Effect)
    (h : createAgentRuntime env options st = Except.ok (agent, st1, effs)) :
    getModelInstance env options.modelId = Except.ok agent.model ∧
    (agent.checkpointer, st1, effs) = getCheckpointer env.userDataPath st ∧
    agent.backend = createSyncedBackendFactory
      (match options.workspacePath with
       | some q => q
       | none => st1.globalWorkspacePath) := by
  cases hm : getModelInstance env options.modelId with
  | error e =>
      unfold createAgentRuntime at h
      rw [hm] at h
      cases h
  | ok m =>
      unfold createAgentRuntime at h
      rw [hm] at h
      rcases hg : getCheckpointer env.userDataPath st with ⟨saver, st', effs'⟩
      rw [hg] at h
      simp only [Except.ok.injEq, Prod.mk.injEq, createDeepAgent] at h
      obtain ⟨hagent, hst1, heffs⟩ := h
      subst hst1
      subst heffs
      subst hagent
      exact ⟨rfl, rfl, rfl⟩

/-- C6: whenever `createAgentRuntime` succeeds, it has obtained the
checkpointer singleton via `getCheckpointer` (the resulting state stores the
very instance handed to the agent), built the workspace backend factory via
`createSyncedBackendFactory` at the selected sync path, and passed exactly
the model instance, that checkpointer and that factory to `createDeepAgent`,
whose result it returns. -/
theorem createAgentRuntime_wiring (env : Env)
    (options : CreateAgentRuntimeOptions) (st : RuntimeState)
    (agent : DeepAgent) (st1 : RuntimeState) (effs : List Effect)
    (h : createAgentRuntime env options st = Except.ok (agent, st1, effs)) :
    getModelInstance env options.modelId = Except.ok agent.model ∧
    (agent.checkpointer, st1, effs) = getCheckpointer env.userDataPath st ∧
    st1.checkpointer = some agent.checkpointer ∧
    agent.backend = createSyncedBackendFactory
      (match options.workspacePath with
       | some q => q
       | none => st1.globalWorkspacePath) ∧
    agent = createDeepAgent agent.model agent.checkpointer agent.backend := by
  have h2 := createAgentRuntime_ok env options st agent st1 effs h
  refine ⟨h2.1, h2.2.1, ?_, h2.2.2, rfl⟩
  have hcp : agent.checkpointer = (getCheckpointer env.userDataPath st).1 := by
    rw [← h2.2.1]
  have hstc : st1.checkpointer =
      (getCheckpointer env.userDataPath st).2.1.checkpointer := by
    rw [← h2.2.1]
  rw [hstc, getCheckpointer_stores_result, ← hcp]

/-- C6 witness: the wiring at a concrete environment, default options and a
fresh state. -/
theorem createAgentRuntime_wiring_witness :
    getModelInstance envDemo none =
      Except.ok (ModelInstance.chatAnthropic "claude-sonnet-4" "sk-ant") ∧
    ((⟨0, "ud/langgraph.sqlite"⟩ : SqlJsSaver),
      (⟨some ⟨0, "ud/langgraph.sqlite"⟩, none, 1⟩ : RuntimeState),
      [Effect.newSaver 0 "ud/langgraph.sqlite", Effect.saverInit 0]) =
      getCheckpointer envDemo.userDataPath ⟨none, none, 0⟩ ∧
    (⟨some ⟨0, "ud/langgraph.sqlite"⟩, none, 1⟩ : RuntimeState).checkpointer =
      some ⟨0, "ud/langgraph.sqlite"⟩ ∧
    (⟨none⟩ : SyncedBackendFactory) = createSyncedBackendFactory none ∧
    (⟨ModelInstance.chatAnthropic "claude-sonnet-4" "sk-ant",
      ⟨0, "ud/langgraph.sqlite"⟩, ⟨none⟩⟩ : DeepAgent) =
      createDeepAgent (ModelInstance.chatAnthropic "claude-sonnet-4" "sk-ant")
        ⟨0, "ud/langgraph.sqlite"⟩ ⟨none⟩ :=
  createAgentRuntime_wiring envDemo {} ⟨none, none, 0⟩
    ⟨ModelInstance.chatAnthropic "claude-sonnet-4" "sk-ant",
     ⟨0, "ud/langgraph.sqlite"⟩, ⟨none⟩⟩
    ⟨some ⟨0, "ud/langgraph.sqlite"⟩, none, 1⟩
    [Effect.newSaver 0 "ud/langgraph.sqlite", Effect.saverInit 0]
    rfl

/-- C8: for every sequence of `put` calls on one thread of the checkpoint
store (applying the statement to each prefix of the sequence gives the
property after each call), `getLatest` returns one of the submitted
checkpoints, and its `checkpointId` is greatest among those submitted so
far. -/
theorem put_getLatest_greatest (t : String) (cps : List Checkpoint)
    (hall : ∀ cp ∈ cps, cp.threadId = t) (hne : cps ≠ []) :
    (getLatest t (putAll cps [])).isSome = true ∧
    ∀ c, getLatest t (putAll cps []) = some c →
      c ∈ cps ∧ ∀ d ∈ cps, d.checkpointId ≤ c.checkpointId := by
  rw [putAll_eq_append, List.nil_append]
  have haux := getLatest_spec_aux t cps hall
  constructor
  · cases hl : getLatest t cps with
    | none => exact absurd (haux.1 hl) hne
    | some c => rfl
  · exact haux.2

/-- C8 witness: three puts with ids 1, 3, 2 on thread `t`; `getLatest`
returns a checkpoint. -/
theorem put_getLatest_greatest_witness :
    (getLatest "t" (putAll
      [⟨"t", 1, none, "s1", "m1"⟩, ⟨"t", 3, some 1, "s3", "m3"⟩,
       ⟨"t", 2, some 3, "s2", "m2"⟩] [])).isSome = true :=
  (put_getLatest_greatest "t"
    [⟨"t", 1, none, "s1", "m1"⟩, ⟨"t", 3, some 1, "s3", "m3"⟩,
     ⟨"t", 2, some 3, "s2", "m2"⟩] (by decide) (by decide)).1

/-- C9: `createAgentRuntime` distinguishes an absent `workspacePath` option
from an explicit null: with the global path set to `p` via
`setWorkspacePath`, an absent option hands the backend factory `p`, while an
explicit null hands it `none` (state-only mode) even when `p` is a non-null
path. -/
theorem createAgentRuntime_workspace_option (env : Env) (mId : Option String)
    (p : Option String) (st : RuntimeState) (agent agent2 : DeepAgent)
    (st2 st3 : RuntimeState) (e2 e3 : List Effect) :
    (createAgentRuntime env ⟨mId, some none⟩ (setWorkspacePath p st) =
        Except.ok (agent, st2, e2) →
      agent.backend = createSyncedBackendFactory none) ∧
    (createAgentRuntime env ⟨mId, none⟩ (setWorkspacePath p st) =
        Except.ok (agent2, st3, e3) →
      agent2.backend = createSyncedBackendFactory p) := by
  constructor
  · intro h
    exact (createAgentRuntime_ok env ⟨mId, some none⟩ (setWorkspacePath p st)
      agent st2 e2 h).2.2
  · intro h
    have h2 := createAgentRuntime_ok env ⟨mId, none⟩ (setWorkspacePath p st)
      agent2 st3 e3 h
    have hst3 : st3.globalWorkspacePath = p := by
      have hg : st3.globalWorkspacePath =
          (getCheckpointer env.userDataPath
            (setWorkspacePath p st)).2.1.globalWorkspacePath := by
        rw [← h2.2.1]
      rw [hg, getCheckpointer_preserves_gwp]
      rfl
    have hb := h2.2.2
    rw [hst3] at hb
    exact hb

/-- C9 witness: with the global path set to `/ws`, an explicit null option
selects no sync path, and an absent option selects `/ws`. -/
theorem createAgentRuntime_workspace_option_witness :
    (⟨ModelInstance.chatAnthropic "claude-sonnet-4" "sk-ant",
      ⟨0, "ud/langgraph.sqlite"⟩, ⟨none⟩⟩ : DeepAgent).backend =
      createSyncedBackendFactory none ∧
    (⟨ModelInstance.chatAnthropic "claude-sonnet-4" "sk-ant",
      ⟨0, "ud/langgraph.sqlite"⟩, ⟨some "/ws"⟩⟩ : DeepAgent).backend =
      createSyncedBackendFactory (some "/ws") :=
  ⟨(createAgentRuntime_workspace_option envDemo none (some "/ws")
      ⟨none, none, 0⟩
      ⟨ModelInstance.chatAnthropic "claude-sonnet-4" "sk-ant",
       ⟨0, "ud/langgraph.sqlite"⟩, ⟨none⟩⟩
      ⟨ModelInstance.chatAnthropic "claude-sonnet-4" "sk-ant",
       ⟨0, "ud/langgraph.sqlite"⟩, ⟨some "/ws"⟩⟩
      ⟨some ⟨0, "ud/langgraph.sqlite"⟩, some "/ws", 1⟩
      ⟨some ⟨0, "ud/langgraph.sqlite"⟩, some "/ws", 1⟩
      [Effect.newSaver 0 "ud/langgraph.sqlite", Effect.saverInit 0]
      [Effect.newSaver 0 "ud/langgraph.sqlite", Effect.saverInit 0]).1 rfl,
   (createAgentRuntime_workspace_option envDemo none (some "/ws")
      ⟨none, none, 0⟩
      ⟨ModelInstance.chatAnthropic "claude-sonnet-4" "sk-ant",
       ⟨0, "ud/langgraph.sqlite"⟩, ⟨none⟩⟩
      ⟨ModelInstance.chatAnthropic "claude-sonnet-4" "sk-ant",
       ⟨0, "ud/langgraph.sqlite"⟩, ⟨some "/ws"⟩⟩
      ⟨some ⟨0, "ud/langgraph.sqlite"⟩, some "/ws", 1⟩
      ⟨some ⟨0, "ud/langgraph.sqlite"⟩, some "/ws", 1⟩
      [Effect.newSaver 0 "ud/langgraph.sqlite", Effect.saverInit 0]
      [Effect.newSaver 0 "ud/langgraph.sqlite", Effect.saverInit 0]).2 rfl⟩

end OpenworkD
